import Mathlib

/-!
This file is a shallow embedding, in Lean 4, of the capability-matrix /
graceful-degradation subsystem of the `golem-llm` search library
(`src/llm/search/src/capabilities.rs` and `src/llm/search/src/fallbacks.rs`),
together with theorems settling a list of claims about that code.

Modelling conventions:
- Rust `String` is modelled by Lean `String`; Rust `str::len()` (UTF-8 byte
  length) is modelled by `rustStrLen`, which sums the UTF-8 sizes of the
  characters.
- Rust `u32` values are modelled by `Nat`; where the source performs a cast
  (`as u32`) or arithmetic that can wrap, the model reduces modulo `2 ^ 32`.
- Rust `f64` (the hit score, which the modelled code only ever copies and
  never inspects) is modelled by its raw 64-bit pattern `F64`.
- `HashMap` values are modelled by association lists with insert-or-replace
  semantics; the claims below only ever inspect maps through lookups, never
  through iteration order, except where a map is serialized to JSON: there
  the model serializes in insertion order, a deterministic refinement of the
  arbitrary iteration order of the Rust `HashMap`.
- `serde_json` parsing is modelled by `parseJson`, a parser for JSON
  restricted to integer numerals and to the string escapes
  `\" \\ \/ \n \t \r`; serialization is modelled by `serializeJson`.
- A Rust panic (out-of-bounds or non-character-boundary string slicing) is
  modelled by `Option`: `none` is a panic.
-/

set_option maxRecDepth 20000

namespace GolemSearch

/-! ## String and character helpers -/

/-- Decimal digits of a natural number, accumulator-based, with fuel for
structural termination. -/
def natStrAux : Nat → Nat → List Char → List Char
  | 0, _, acc => acc
  | fuel + 1, n, acc =>
    let d := Char.ofNat (48 + n % 10)
    if n < 10 then d :: acc else natStrAux fuel (n / 10) (d :: acc)

/-- Decimal string of a natural number: models `u32::to_string` /
`usize::to_string`. -/
def natStr (n : Nat) : String :=
  String.mk (natStrAux (n + 1) n [])

/-- Decimal string of an integer: models the display of an integer
`serde_json::Number`. -/
def intStr (n : Int) : String :=
  if n < 0 then "-" ++ natStr n.natAbs else natStr n.natAbs

/-- Rust `str::len()`: the length in UTF-8 bytes. -/
def rustStrLen (s : String) : Nat :=
  s.data.foldl (fun n c => n + c.utf8Size) 0

/-- UTF-8 byte length of a list of characters. -/
def byteLen (cs : List Char) : Nat :=
  cs.foldl (fun n c => n + c.utf8Size) 0

/-- Models Rust `char::to_lowercase` restricted to one-character mappings on
ASCII and Latin-1 (`A`–`Z` and `À`–`Þ` except `×` map down by 32); faithful
for every character appearing in this development. -/
def rustToLowerChar (c : Char) : Char :=
  if 65 ≤ c.val ∧ c.val ≤ 90 then Char.ofNat (c.toNat + 32)
  else if 192 ≤ c.val ∧ c.val ≤ 222 ∧ c.val ≠ 215 then Char.ofNat (c.toNat + 32)
  else c

/-- Models Rust `str::to_lowercase` (character-wise; faithful for characters
whose lowercase form is a single character, which covers ASCII and Latin-1). -/
def rustToLower (s : String) : String :=
  String.mk (s.data.map rustToLowerChar)

/-- Models Rust `char::is_alphanumeric` on ASCII and Latin-1 (the Latin-1
letters are `À`–`ÿ` except `×` and `÷`); faithful for every character
appearing in this development. -/
def rustIsAlphanumeric (c : Char) : Bool :=
  (48 ≤ c.val ∧ c.val ≤ 57) ∨ (65 ≤ c.val ∧ c.val ≤ 90) ∨ (97 ≤ c.val ∧ c.val ≤ 122)
    ∨ (192 ≤ c.val ∧ c.val ≤ 255 ∧ c.val ≠ 215 ∧ c.val ≠ 247)

/-- Models Rust `char::is_whitespace` on the ASCII range. -/
def rustIsWhitespace (c : Char) : Bool :=
  c = ' ' ∨ c = '\t' ∨ c = '\n' ∨ c = '\r' ∨ c.val = 11 ∨ c.val = 12

/-- Reduction modulo `2 ^ 32`: Rust `u32` arithmetic (release semantics) and
`as u32` casts. -/
def u32Mod (n : Nat) : Nat := n % 4294967296

/-! ## Association lists (model of `HashMap`) -/

/-- `HashMap::get`. -/
def lookupA {β : Type} : List (String × β) → String → Option β
  | [], _ => none
  | (k, v) :: rest, key => if k = key then some v else lookupA rest key

/-- `HashMap::insert` (replace an existing binding, else append). -/
def insertA {β : Type} : List (String × β) → String → β → List (String × β)
  | [], key, val => [(key, val)]
  | (k, v) :: rest, key, val =>
    if k = key then (k, val) :: rest else (k, v) :: insertA rest key val

/-- `*map.entry(key).or_insert(0) += 1` (`u32` increment, wrapping). -/
def incrA : List (String × Nat) → String → List (String × Nat)
  | [], key => [(key, 1)]
  | (k, v) :: rest, key =>
    if k = key then (k, u32Mod (v + 1)) :: rest else (k, v) :: incrA rest key

/-! ## JSON values (model of `serde_json::Value`) -/

/-- Model of `serde_json::Value`, with numbers restricted to integers (no
claim in this development depends on non-integer numerals). -/
inductive Json where
  | null : Json
  | bool (b : Bool) : Json
  | num (n : Int) : Json
  | str (s : String) : Json
  | arr (items : List Json) : Json
  | obj (entries : List (String × Json)) : Json
deriving Inhabited

/-- `serde_json::Value::get(key)`: a lookup on objects, `None` otherwise. -/
def jsonGet : Json → String → Option Json
  | Json.obj entries, key => lookupA entries key
  | _, _ => none

/-- `serde_json::Value::as_str()`. -/
def jsonAsStr : Json → Option String
  | Json.str s => some s
  | _ => none

/-- JSON string escaping as performed by `serde_json` (control characters
below 0x20 beyond the named escapes are not produced by any input in this
development and map through `\u0000`-style escapes). -/
def escapeJsonChar (c : Char) : List Char :=
  if c = '"' then ['\\', '"']
  else if c = '\\' then ['\\', '\\']
  else if c = '\n' then ['\\', 'n']
  else if c = '\t' then ['\\', 't']
  else if c = '\r' then ['\\', 'r']
  else if c.val < 32 then
    ['\\', 'u', '0', '0', Char.ofNat (48 + c.toNat / 16),
      (if c.toNat % 16 < 10 then Char.ofNat (48 + c.toNat % 16)
       else Char.ofNat (87 + c.toNat % 16))]
  else [c]

/-- Serialized form of a JSON string literal. -/
def serializeStr (s : String) : String :=
  "\"" ++ String.mk (s.data.foldr (fun c acc => escapeJsonChar c ++ acc) []) ++ "\""

mutual

/-- Serialization of a JSON value (fuelled for structural termination;
`serializeJson` below supplies sufficient fuel). -/
def serializeJsonF : Nat → Json → String
  | 0, _ => ""
  | _ + 1, Json.null => "null"
  | _ + 1, Json.bool b => if b then "true" else "false"
  | _ + 1, Json.num n => intStr n
  | _ + 1, Json.str s => serializeStr s
  | fuel + 1, Json.arr items => "[" ++ serializeArrF fuel items ++ "]"
  | fuel + 1, Json.obj entries => "\x7b" ++ serializeObjF fuel entries ++ "\x7d"

def serializeArrF : Nat → List Json → String
  | 0, _ => ""
  | _ + 1, [] => ""
  | fuel + 1, [j] => serializeJsonF fuel j
  | fuel + 1, j :: rest => serializeJsonF fuel j ++ "," ++ serializeArrF fuel rest

def serializeObjF : Nat → List (String × Json) → String
  | 0, _ => ""
  | _ + 1, [] => ""
  | fuel + 1, [(k, j)] => serializeStr k ++ ":" ++ serializeJsonF fuel j
  | fuel + 1, (k, j) :: rest =>
    serializeStr k ++ ":" ++ serializeJsonF fuel j ++ "," ++ serializeObjF fuel rest

end

/-- Models `serde_json::Value::to_string()`. The fuel is supplied by the call
site from the length of the string the value was parsed from, which bounds
the number of constructors of the value and hence suffices for the fuelled
serializer never to run out. -/
def jsonDisplay (fuel : Nat) (j : Json) : String :=
  serializeJsonF fuel j

/-- Models `serde_json::to_string` on a `HashMap<String, Vec<String>>`
(the client-side highlights map), serializing in insertion order — a
deterministic refinement of `HashMap` iteration order. -/
def serializeStrListMap (m : List (String × List String)) : String :=
  let entry := fun (kv : String × List String) =>
    serializeStr kv.1 ++ ":[" ++
      String.intercalate "," (kv.2.map serializeStr) ++ "]"
  "\x7b" ++ String.intercalate "," (m.map entry) ++ "\x7d"

/-- Models `serde_json::to_string` on a
`HashMap<String, HashMap<String, u32>>` (the client-side facets map),
serializing in insertion order — a deterministic refinement of `HashMap`
iteration order. -/
def serializeFacetMap (m : List (String × List (String × Nat))) : String :=
  let inner := fun (vc : String × Nat) => serializeStr vc.1 ++ ":" ++ natStr vc.2
  let entry := fun (kv : String × List (String × Nat)) =>
    serializeStr kv.1 ++ ":\x7b" ++
      String.intercalate "," (kv.2.map inner) ++ "\x7d"
  "\x7b" ++ String.intercalate "," (m.map entry) ++ "\x7d"

/-! ## JSON parsing (model of `serde_json::from_str::<Value>`) -/

/-- Skip JSON whitespace (space, tab, newline, carriage return). -/
def skipWs : List Char → List Char
  | [] => []
  | c :: cs =>
    if c = ' ' ∨ c = '\n' ∨ c = '\t' ∨ c = '\r' then skipWs cs else c :: cs

/-- Is an ASCII decimal digit. -/
def isDigitChar (c : Char) : Bool :=
  48 ≤ c.val ∧ c.val ≤ 57

/-- Split off a maximal run of leading digits. -/
def takeDigits : List Char → (List Char × List Char)
  | [] => ([], [])
  | c :: cs =>
    if isDigitChar c then
      let (ds, rest) := takeDigits cs
      (c :: ds, rest)
    else ([], c :: cs)

/-- Numeric value of a digit run. -/
def digitsToNat (ds : List Char) : Nat :=
  ds.foldl (fun n c => 10 * n + (c.toNat - 48)) 0

/-- Parse the body of a JSON string literal (after the opening quote),
supporting the escapes `\" \\ \/ \n \t \r`. -/
def parseStringBody : Nat → List Char → List Char → Option (String × List Char)
  | 0, _, _ => none
  | fuel + 1, acc, cs =>
    match cs with
    | [] => none
    | c :: rest =>
      if c = '"' then some (String.mk acc.reverse, rest)
      else if c = '\\' then
        match rest with
        | [] => none
        | e :: rest2 =>
          if e = '"' then parseStringBody fuel ('"' :: acc) rest2
          else if e = '\\' then parseStringBody fuel ('\\' :: acc) rest2
          else if e = '/' then parseStringBody fuel ('/' :: acc) rest2
          else if e = 'n' then parseStringBody fuel ('\n' :: acc) rest2
          else if e = 't' then parseStringBody fuel ('\t' :: acc) rest2
          else if e = 'r' then parseStringBody fuel ('\r' :: acc) rest2
          else none
      else if c.val < 32 then none
      else parseStringBody fuel (c :: acc) rest

/-- Parse an integer numeral (optionally negative); a following `.`, `e` or
`E` (a non-integer numeral, outside this model) fails the parse. -/
def parseNum (cs : List Char) : Option (Int × List Char) :=
  match cs with
  | '-' :: rest =>
    let (ds, rest2) := takeDigits rest
    match ds, rest2 with
    | [], _ => none
    | _, '.' :: _ => none
    | _, 'e' :: _ => none
    | _, 'E' :: _ => none
    | _, _ => some (-(digitsToNat ds : Int), rest2)
  | _ =>
    let (ds, rest2) := takeDigits cs
    match ds, rest2 with
    | [], _ => none
    | _, '.' :: _ => none
    | _, 'e' :: _ => none
    | _, 'E' :: _ => none
    | _, _ => some ((digitsToNat ds : Int), rest2)

mutual

/-- Parse one JSON value. -/
def parseVal : Nat → List Char → Option (Json × List Char)
  | 0, _ => none
  | fuel + 1, cs =>
    match skipWs cs with
    | 'n' :: 'u' :: 'l' :: 'l' :: rest => some (Json.null, rest)
    | 't' :: 'r' :: 'u' :: 'e' :: rest => some (Json.bool true, rest)
    | 'f' :: 'a' :: 'l' :: 's' :: 'e' :: rest => some (Json.bool false, rest)
    | '"' :: rest =>
      match parseStringBody (rest.length + 1) [] rest with
      | some (s, rest2) => some (Json.str s, rest2)
      | none => none
    | '[' :: rest =>
      (match skipWs rest with
       | ']' :: rest2 => some (Json.arr [], rest2)
       | other => parseArrItems fuel [] other)
    | '\x7b' :: rest =>
      (match skipWs rest with
       | '\x7d' :: rest2 => some (Json.obj [], rest2)
       | other => parseObjItems fuel [] other)
    | other =>
      match parseNum other with
      | some (n, rest) => some (Json.num n, rest)
      | none => none

/-- Parse the remaining items of a non-empty JSON array (accumulator holds the
items already parsed, in reverse). -/
def parseArrItems : Nat → List Json → List Char → Option (Json × List Char)
  | 0, _, _ => none
  | fuel + 1, acc, cs =>
    match parseVal fuel cs with
    | none => none
    | some (item, rest) =>
      match skipWs rest with
      | ',' :: rest2 => parseArrItems fuel (item :: acc) rest2
      | ']' :: rest2 => some (Json.arr (item :: acc).reverse, rest2)
      | _ => none

/-- Parse the remaining entries of a non-empty JSON object (duplicate keys
overwrite, as in `serde_json`). -/
def parseObjItems : Nat → List (String × Json) → List Char → Option (Json × List Char)
  | 0, _, _ => none
  | fuel + 1, acc, cs =>
    match skipWs cs with
    | '"' :: rest =>
      (match parseStringBody (rest.length + 1) [] rest with
       | none => none
       | some (key, rest2) =>
         match skipWs rest2 with
         | ':' :: rest3 =>
           (match parseVal fuel rest3 with
            | none => none
            | some (value, rest4) =>
              match skipWs rest4 with
              | ',' :: rest5 => parseObjItems fuel (insertA acc key value) rest5
              | '\x7d' :: rest5 => some (Json.obj (insertA acc key value), rest5)
              | _ => none)
         | _ => none)
    | _ => none

end

/-- Models `serde_json::from_str::<Value>` (within the modelled JSON subset):
parse one value and require only whitespace after it. -/
def parseJson (s : String) : Option Json :=
  match parseVal (2 * s.data.length + 8) s.data with
  | some (j, rest) => if skipWs rest = [] then some j else none
  | none => none

/-! ## Data model (`types.rs` / the WIT-generated search types) -/

/-- Raw 64-bit pattern of a Rust `f64`: the modelled code only ever copies
scores, never inspects them. -/
structure F64 where
  bits : Nat
deriving DecidableEq

/-- `HighlightConfig`. -/
structure HighlightConfig where
  fields : List String
  pre_tag : Option String
  post_tag : Option String
  max_length : Option Nat
deriving DecidableEq

/-- `SearchConfig`: only ever cloned wholesale by the modelled code, so only
the `provider_params` field is represented. -/
structure SearchConfig where
  provider_params : Option String
deriving DecidableEq

/-- `SearchQuery`. -/
structure SearchQuery where
  q : Option String
  filters : List String
  sort : List String
  facets : List String
  page : Option Nat
  per_page : Option Nat
  offset : Option Nat
  highlight : Option HighlightConfig
  config : Option SearchConfig
deriving DecidableEq

/-- `SearchHit`. -/
structure SearchHit where
  id : String
  score : Option F64
  content : Option String
  highlights : Option String
deriving DecidableEq

/-- `SearchResults`. -/
structure SearchResults where
  total : Option Nat
  page : Option Nat
  per_page : Option Nat
  hits : List SearchHit
  facets : Option String
  took_ms : Option Nat
deriving DecidableEq

/-- `SearchError` (`error.rs`). -/
inductive SearchError where
  | indexNotFound (msg : String)
  | invalidQuery (msg : String)
  | unsupported
  | internal (msg : String)
  | timeout
  | rateLimited
deriving DecidableEq

/-! ## Capability matrix (`capabilities.rs`) -/

/-- `FeatureSupport`. -/
inductive FeatureSupport where
  | native
  | limited
  | unsupported
  | conditional
  | emulated
deriving DecidableEq

/-- `CoreCapabilities`. -/
structure CoreCapabilities where
  full_text_search : FeatureSupport
  keyword_search : FeatureSupport
  index_management : FeatureSupport
  document_operations : FeatureSupport
  schema_management : FeatureSupport
  filtering : FeatureSupport
  pagination : FeatureSupport
deriving DecidableEq

/-- `AdvancedFeatures`. -/
structure AdvancedFeatures where
  faceted_search : FeatureSupport
  highlighting : FeatureSupport
  vector_search : FeatureSupport
  geo_search : FeatureSupport
  streaming_search : FeatureSupport
  autocomplete : FeatureSupport
  typo_tolerance : FeatureSupport
  custom_ranking : FeatureSupport
  multilingual : FeatureSupport
  batch_operations : FeatureSupport
deriving DecidableEq

/-- `PerformanceLimits` (all `Option<u32>`). -/
structure PerformanceLimits where
  max_batch_size : Option Nat
  max_query_length : Option Nat
  max_facets : Option Nat
  max_filters : Option Nat
  max_results_per_page : Option Nat
  default_timeout_seconds : Option Nat
  rate_limit_rps : Option Nat
deriving DecidableEq

/-- `CapabilityMatrix`. -/
structure CapabilityMatrix where
  provider_name : String
  provider_version : Option String
  core_capabilities : CoreCapabilities
  advanced_features : AdvancedFeatures
  performance_limits : PerformanceLimits
  provider_specific : List (String × FeatureSupport)
deriving DecidableEq

/-- `FacetFallback`. -/
inductive FacetFallback where
  | empty
  | clientSide
  | separateQueries
  | error
deriving DecidableEq

/-- `HighlightFallback`. -/
inductive HighlightFallback where
  | none
  | clientSide
  | error
deriving DecidableEq

/-- `capabilities::StreamingFallback` (the policy enum; the pagination
emulator struct of `fallbacks.rs` that shares its name in the source is
`StreamingFallback` below). -/
inductive StreamingFallbackPolicy where
  | pagination
  | error
deriving DecidableEq

/-- `VectorSearchFallback`. -/
inductive VectorSearchFallback where
  | textSearch
  | error
deriving DecidableEq

/-- `GeoSearchFallback`. -/
inductive GeoSearchFallback where
  | boundingBox
  | error
deriving DecidableEq

/-- `DegradationStrategy`. -/
structure DegradationStrategy where
  facet_fallback : FacetFallback
  highlight_fallback : HighlightFallback
  streaming_fallback : StreamingFallbackPolicy
  vector_search_fallback : VectorSearchFallback
  geo_search_fallback : GeoSearchFallback
  log_unsupported_warnings : Bool
  strict_mode : Bool
deriving DecidableEq

/-- `DegradationStrategy::default()`. -/
def DegradationStrategy.default : DegradationStrategy :=
  { facet_fallback := FacetFallback.clientSide
    highlight_fallback := HighlightFallback.clientSide
    streaming_fallback := StreamingFallbackPolicy.pagination
    vector_search_fallback := VectorSearchFallback.textSearch
    geo_search_fallback := GeoSearchFallback.boundingBox
    log_unsupported_warnings := true
    strict_mode := false }

/-- `format!("\x7b:?\x7d", facet_fallback)`. -/
def facetFallbackDebug : FacetFallback → String
  | FacetFallback.empty => "Empty"
  | FacetFallback.clientSide => "ClientSide"
  | FacetFallback.separateQueries => "SeparateQueries"
  | FacetFallback.error => "Error"

/-- `format!("\x7b:?\x7d", highlight_fallback)`. -/
def highlightFallbackDebug : HighlightFallback → String
  | HighlightFallback.none => "None"
  | HighlightFallback.clientSide => "ClientSide"
  | HighlightFallback.error => "Error"

/-- `CompatibilityIssue`. -/
inductive CompatibilityIssue where
  | unsupportedFeature (feature fallback : String)
  | limitedSupport (feature limitation : String)
  | requiresFallback (feature method : String)
  | conditionalSupport (feature condition : String)
  | performanceLimit (parameter requested limit : String)
deriving DecidableEq

/-- `QuerySupportResult`. -/
structure QuerySupportResult where
  is_fully_supported : Bool
  requires_fallback : Bool
  issues : List CompatibilityIssue
deriving DecidableEq

/-- The faceting block of `CapabilityChecker::check_query_support`
(`capabilities.rs:270-301`): the issue it appends (if any) and whether it
sets `requires_fallback`. -/
def facetCheck (matrix : CapabilityMatrix) (strategy : DegradationStrategy)
    (query : SearchQuery) : List CompatibilityIssue × Bool :=
  if query.facets ≠ [] then
    match matrix.advanced_features.faceted_search with
    | FeatureSupport.native => ([], false)
    | FeatureSupport.limited =>
      ([CompatibilityIssue.limitedSupport "faceted_search"
          "May have performance or accuracy limitations"], false)
    | FeatureSupport.unsupported =>
      ([CompatibilityIssue.unsupportedFeature "faceted_search"
          (facetFallbackDebug strategy.facet_fallback)], true)
    | FeatureSupport.emulated =>
      ([CompatibilityIssue.requiresFallback "faceted_search"
          "Client-side post-processing"], true)
    | FeatureSupport.conditional =>
      ([CompatibilityIssue.conditionalSupport "faceted_search"
          "Depends on index configuration"], false)
  else ([], false)

/-- The highlighting block of `check_query_support`
(`capabilities.rs:303-334`). -/
def highlightCheck (matrix : CapabilityMatrix) (strategy : DegradationStrategy)
    (query : SearchQuery) : List CompatibilityIssue × Bool :=
  if query.highlight.isSome then
    match matrix.advanced_features.highlighting with
    | FeatureSupport.native => ([], false)
    | FeatureSupport.limited =>
      ([CompatibilityIssue.limitedSupport "highlighting"
          "May not support all highlight options"], false)
    | FeatureSupport.unsupported =>
      ([CompatibilityIssue.unsupportedFeature "highlighting"
          (highlightFallbackDebug strategy.highlight_fallback)], true)
    | FeatureSupport.emulated =>
      ([CompatibilityIssue.requiresFallback "highlighting"
          "Client-side text processing"], true)
    | FeatureSupport.conditional =>
      ([CompatibilityIssue.conditionalSupport "highlighting"
          "Depends on field configuration"], false)
  else ([], false)

/-- The `per_page` performance block of `check_query_support`
(`capabilities.rs:336-347`). -/
def perPageCheck (matrix : CapabilityMatrix) (query : SearchQuery) :
    List CompatibilityIssue :=
  match query.per_page, matrix.performance_limits.max_results_per_page with
  | some pp, some maxPp =>
    if pp > maxPp then
      [CompatibilityIssue.performanceLimit "per_page" (natStr pp) (natStr maxPp)]
    else []
  | _, _ => []

/-- The query-length performance block of `check_query_support`
(`capabilities.rs:349-360`). Note the source compares `query_text.len()` —
the UTF-8 *byte* length — against `max_query_length`. -/
def queryLenCheck (matrix : CapabilityMatrix) (query : SearchQuery) :
    List CompatibilityIssue :=
  match query.q, matrix.performance_limits.max_query_length with
  | some t, some maxLen =>
    if rustStrLen t > maxLen then
      [CompatibilityIssue.performanceLimit "query_length"
        (natStr (rustStrLen t)) (natStr maxLen)]
    else []
  | _, _ => []

/-- The filter-count performance block of `check_query_support`
(`capabilities.rs:362-373`). -/
def filterCountCheck (matrix : CapabilityMatrix) (query : SearchQuery) :
    List CompatibilityIssue :=
  if query.filters ≠ [] then
    match matrix.performance_limits.max_filters with
    | some maxF =>
      if query.filters.length > maxF then
        [CompatibilityIssue.performanceLimit "filter_count"
          (natStr query.filters.length) (natStr maxF)]
      else []
    | none => []
  else []

/-- `CapabilityChecker::check_query_support` (`capabilities.rs:266-380`): the
five blocks above run in source order, appending their issues to one list;
only the first two can set `requires_fallback`. The function is total — it
always returns a `QuerySupportResult`, never an error. -/
def checkQuerySupport (matrix : CapabilityMatrix) (strategy : DegradationStrategy)
    (query : SearchQuery) : QuerySupportResult :=
  let issues :=
    (facetCheck matrix strategy query).1 ++ (highlightCheck matrix strategy query).1
      ++ perPageCheck matrix query ++ queryLenCheck matrix query
      ++ filterCountCheck matrix query
  { is_fully_supported := issues.isEmpty
    requires_fallback :=
      (facetCheck matrix strategy query).2 || (highlightCheck matrix strategy query).2
    issues := issues }

/-! ## Byte-position text machinery for `fallbacks.rs`

Rust strings are UTF-8 byte strings; `str::find` returns a byte offset, and
`&text[a..b]` slices at byte offsets, panicking when `a > b`, `b` exceeds
the length, or either offset falls inside a multi-byte character. The model
keeps text as `List Char` and carries byte offsets explicitly; a bytewise
substring match can only start at a character boundary (a UTF-8 lead byte
never equals a continuation byte), so the character-level search below is
faithful to the bytewise one. -/

/-- `haystack.find(needle)` (byte offset of the first occurrence). -/
def findSubAux : List Char → List Char → Nat → Option Nat
  | needle, [], acc => if needle.isEmpty then some acc else none
  | needle, c :: cs, acc =>
    if needle.isPrefixOf (c :: cs) then some acc
    else findSubAux needle cs (acc + c.utf8Size)

/-- `haystack.find(needle)`. -/
def findSub (hay needle : List Char) : Option Nat :=
  findSubAux needle hay 0

/-- Drop the first `n` bytes; `none` when `n` is not a character boundary
(or exceeds the length) — the panic case of Rust slicing. -/
def dropBytes : List Char → Nat → Option (List Char)
  | cs, 0 => some cs
  | [], _ + 1 => none
  | c :: cs, n + 1 =>
    if c.utf8Size ≤ n + 1 then dropBytes cs (n + 1 - c.utf8Size) else none

/-- Take the first `n` bytes; `none` when `n` is not a character boundary
(or exceeds the length). -/
def takeBytes : List Char → Nat → Option (List Char)
  | _, 0 => some []
  | [], _ + 1 => none
  | c :: cs, n + 1 =>
    if c.utf8Size ≤ n + 1 then (takeBytes cs (n + 1 - c.utf8Size)).map (fun t => c :: t)
    else none

/-- Rust `&text[a..b]`: `none` models the panic (offsets out of order, out of
bounds, or not on character boundaries). -/
def byteSlice (cs : List Char) (a b : Nat) : Option (List Char) :=
  if a ≤ b then
    match dropBytes cs a with
    | none => none
    | some t => takeBytes t (b - a)
  else none

/-- Case-insensitive character-wise comparison of `term` against a prefix of
the text (models the `(?i)` regex flag on the character sets used here). -/
def matchesCI : List Char → List Char → Bool
  | [], _ => true
  | _ :: _, [] => false
  | t :: ts, c :: cs => rustToLowerChar t = rustToLowerChar c && matchesCI ts cs

/-- Regex word character (`\w`): alphanumeric or underscore, on the
character sets used here. -/
def isWordChar (c : Char) : Bool :=
  rustIsAlphanumeric c || c = '_'

/-- One pass of `Regex::replace_all` with the pattern
`(?i)\b<term>\b`: leftmost non-overlapping case-insensitive whole-word
matches of `term` are wrapped in `pre`/`post`. `prevWord` records whether
the previous character was a word character (for the leading `\b`). -/
def replaceAllAux (term pre post : List Char) :
    Nat → Bool → List Char → List Char
  | 0, _, cs => cs
  | fuel + 1, prevWord, cs =>
    match cs with
    | [] => []
    | c :: rest =>
      if !prevWord && !term.isEmpty && matchesCI term cs
          && decide (term.length ≤ cs.length)
          && (match cs.drop term.length with
              | [] => true
              | d :: _ => !isWordChar d) then
        pre ++ cs.take term.length ++ post ++
          replaceAllAux term pre post fuel true (cs.drop term.length)
      else c :: replaceAllAux term pre post fuel (isWordChar c) rest

/-- `Regex::replace_all` for the whole-word case-insensitive term pattern
built in `highlight_text`. -/
def replaceAll (cs term pre post : List Char) : List Char :=
  replaceAllAux term pre post (cs.length + 1) false cs

/-- Byte-lexicographic order on strings (Rust `String` ordering; UTF-8
byte order coincides with code-point order). -/
def lexLe : List Char → List Char → Bool
  | [], _ => true
  | _ :: _, [] => false
  | c :: cs, d :: ds =>
    if c.val < d.val then true
    else if d.val < c.val then false
    else lexLe cs ds

/-- Insertion step of the sort modelling `Vec::sort_unstable`. -/
def insertSorted (x : String) : List String → List String
  | [] => [x]
  | y :: ys => if lexLe x.data y.data then x :: y :: ys else y :: insertSorted x ys

/-- `Vec::<String>::sort_unstable()` (insertion sort; produces the same
sorted sequence). -/
def sortStrings : List String → List String
  | [] => []
  | x :: xs => insertSorted x (sortStrings xs)

/-- `Vec::dedup()` (remove consecutive duplicates). -/
def dedupAdj : List String → List String
  | [] => []
  | [x] => [x]
  | x :: y :: rest =>
    if x = y then dedupAdj (y :: rest) else x :: dedupAdj (y :: rest)

/-! ## Fallback processor (`fallbacks.rs`) -/

/-- Split on whitespace, discarding empty fragments
(`str::split_whitespace`). -/
def splitWhitespaceAux (acc : List Char) : List Char → List (List Char)
  | [] => if acc.isEmpty then [] else [acc.reverse]
  | c :: cs =>
    if rustIsWhitespace c then
      if acc.isEmpty then splitWhitespaceAux [] cs
      else acc.reverse :: splitWhitespaceAux [] cs
    else splitWhitespaceAux (c :: acc) cs

/-- `FallbackProcessor::extract_search_terms` (`fallbacks.rs:210-229`): split
`query.q` on whitespace, keep alphanumeric characters, lowercase, and keep
terms of byte length strictly greater than 2. (The source wraps the result
in `Ok`; it cannot fail.) -/
def extractSearchTerms (query : SearchQuery) : List String :=
  match query.q with
  | none => []
  | some qs =>
    (((splitWhitespaceAux [] qs.data).map
        (fun w => (w.filter rustIsAlphanumeric).map rustToLowerChar)).filter
      (fun w => !w.isEmpty && decide (2 < byteLen w))).map String.mk

/-- `FallbackProcessor::highlight_text` (`fallbacks.rs:265-309`). `none`
models the panic of the byte slice `text[snippet_start..snippet_end]` when a
bound falls inside a multi-byte character. Positions found in
`text.to_lowercase()` are applied to `text`, as in the source. -/
def highlightText (text : String) (searchTerms : List String)
    (preTag postTag : String) (maxLength : Option Nat) : Option (List String) :=
  let textLower := rustToLower text
  let step : Option (List String) → String → Option (List String) :=
    fun acc term =>
      match acc with
      | none => none
      | some snippets =>
        match findSub textLower.data term.data with
        | none => some snippets
        | some pos =>
          let snippetStart := pos - 50
          let snippetEnd0 :=
            match maxLength with
            | some maxLen => min (pos + byteLen term.data + 50) (snippetStart + maxLen)
            | none => pos + byteLen term.data + 50
          let snippetEnd := min snippetEnd0 (byteLen text.data)
          if snippetStart < byteLen text.data then
            match byteSlice text.data snippetStart snippetEnd with
            | none => none
            | some snip =>
              some (snippets ++
                [String.mk (replaceAll snip term.data preTag.data postTag.data)])
          else some snippets
  match searchTerms.foldl step (some []) with
  | none => none
  | some snippets => some ((dedupAdj (sortStrings snippets)).take 3)

/-- `FallbackProcessor::generate_highlights` (`fallbacks.rs:232-262`): per
requested field, when the document field is a string, collect the non-empty
snippet lists. `none` propagates the panic of `highlightText`. -/
def generateHighlights (doc : Json) (highlightFields : List String)
    (searchTerms : List String) (preTag postTag : String)
    (maxLength : Option Nat) : Option (List (String × List String)) :=
  highlightFields.foldl
    (fun acc fieldName =>
      match acc with
      | none => none
      | some highlights =>
        match jsonGet doc fieldName with
        | none => some highlights
        | some fieldValue =>
          match jsonAsStr fieldValue with
          | none => some highlights
          | some text =>
            match highlightText text searchTerms preTag postTag maxLength with
            | none => none
            | some snippets =>
              if snippets.isEmpty then some highlights
              else some (insertA highlights fieldName snippets))
    (some [])

/-- The body of the per-hit loop of
`FallbackProcessor::apply_client_side_highlighting` (`fallbacks.rs:185-203`):
a hit without content, or whose content fails to parse, is untouched;
otherwise `highlights` is overwritten exactly when the computed map is
non-empty. -/
def clientSideHighlightHit (searchTerms : List String) (preTag postTag : String)
    (highlightFields : List String) (maxLength : Option Nat)
    (hit : SearchHit) : Option SearchHit :=
  match hit.content with
  | none => some hit
  | some content =>
    match parseJson content with
    | none => some hit
    | some doc =>
      match generateHighlights doc highlightFields searchTerms preTag postTag maxLength with
      | none => none
      | some highlights =>
        if highlights.isEmpty then some hit
        else some { hit with highlights := some (serializeStrListMap highlights) }

/-- Run a panic-propagating function over a list. -/
def optionMapList {α β : Type} (f : α → Option β) : List α → Option (List β)
  | [] => some []
  | x :: xs =>
    match f x with
    | none => none
    | some y =>
      match optionMapList f xs with
      | none => none
      | some ys => some (y :: ys)

/-- `FallbackProcessor::apply_client_side_highlighting`
(`fallbacks.rs:174-207`). The serialization of the highlight map cannot
fail, so the only failure mode is the propagated panic (`none`). -/
def applyClientSideHighlighting (hits : List SearchHit) (query : SearchQuery)
    (cfg : HighlightConfig) : Option (List SearchHit) :=
  let searchTerms := extractSearchTerms query
  let preTag := cfg.pre_tag.getD "<mark>"
  let postTag := cfg.post_tag.getD "</mark>"
  optionMapList
    (clientSideHighlightHit searchTerms preTag postTag cfg.fields cfg.max_length)
    hits

/-- `FallbackProcessor::apply_highlight_fallback` (`fallbacks.rs:96-123`).
`none` models a panic inside client-side highlighting. -/
def applyHighlightFallback (strategy : DegradationStrategy)
    (results : SearchResults) (query : SearchQuery) :
    Option (Except SearchError SearchResults) :=
  match strategy.highlight_fallback with
  | HighlightFallback.none =>
    some (Except.ok
      { results with hits := results.hits.map (fun hit => { hit with highlights := none }) })
  | HighlightFallback.clientSide =>
    (match query.highlight with
     | some cfg =>
       match applyClientSideHighlighting results.hits query cfg with
       | none => none
       | some hits2 => some (Except.ok { results with hits := hits2 })
     | none => some (Except.ok results))
  | HighlightFallback.error => some (Except.error SearchError.unsupported)

/-- The body of the inner hit loop of
`FallbackProcessor::compute_client_side_facets` (`fallbacks.rs:136-162`) for
one field: string values count as themselves, numbers and booleans as their
string representations, arrays one count per element, anything else as its
JSON serialization. The serializer fuel is derived from the content length,
which bounds the size of any parsed value. -/
def facetFieldStep (fieldFacets : List (String × Nat)) (hit : SearchHit)
    (fieldName : String) : List (String × Nat) :=
  match hit.content with
  | none => fieldFacets
  | some content =>
    match parseJson content with
    | none => fieldFacets
    | some doc =>
      match jsonGet doc fieldName with
      | none => fieldFacets
      | some (Json.str s) => incrA fieldFacets s
      | some (Json.num n) => incrA fieldFacets (intStr n)
      | some (Json.bool b) => incrA fieldFacets (if b then "true" else "false")
      | some (Json.arr items) =>
        items.foldl
          (fun m item =>
            incrA m
              (match item with
               | Json.str s => s
               | _ => jsonDisplay (2 * rustStrLen content + 8) item))
          fieldFacets
      | some v => incrA fieldFacets (jsonDisplay (2 * rustStrLen content + 8) v)

/-- `FallbackProcessor::compute_client_side_facets` (`fallbacks.rs:126-171`):
fields whose per-field map stays empty are omitted from the result. (The
source wraps the result in `Ok`; it cannot fail.) -/
def computeClientSideFacets (hits : List SearchHit)
    (facetFields : List String) : List (String × List (String × Nat)) :=
  facetFields.foldl
    (fun facets fieldName =>
      let fieldFacets := hits.foldl (fun m hit => facetFieldStep m hit fieldName) []
      if fieldFacets.isEmpty then facets else insertA facets fieldName fieldFacets)
    []

/-- `FallbackProcessor::apply_facet_fallback` (`fallbacks.rs:62-93`). The
serialization of the facet map cannot fail, so the `Internal` arm of the
source is unreachable in the model. -/
def applyFacetFallback (strategy : DegradationStrategy)
    (results : SearchResults) (query : SearchQuery) :
    Except SearchError SearchResults :=
  match strategy.facet_fallback with
  | FacetFallback.empty => Except.ok { results with facets := some "\x7b\x7d" }
  | FacetFallback.clientSide =>
    let facets := computeClientSideFacets results.hits query.facets
    Except.ok { results with facets := some (serializeFacetMap facets) }
  | FacetFallback.separateQueries => Except.ok { results with facets := some "\x7b\x7d" }
  | FacetFallback.error => Except.error SearchError.unsupported

/-- `FallbackProcessor::apply_post_processing` (`fallbacks.rs:312-323`):
default `total` to the hit count and `took_ms` to 0 where absent. -/
def applyPostProcessing (results : SearchResults) : SearchResults :=
  let results1 :=
    if results.total = none then
      { results with total := some (u32Mod results.hits.length) }
    else results
  if results1.took_ms = none then { results1 with took_ms := some 0 } else results1

/-- `FallbackProcessor::process_search_results` (`fallbacks.rs:25-59`).
`none` models a panic inside client-side highlighting; `some (error e)` an
early `Err` return; `some (ok results)` the in-place mutation of `results`.
Note neither gate consults `strategy.strict_mode`: that field is never read
anywhere in the source. -/
def processSearchResults (strategy : DegradationStrategy)
    (results : SearchResults) (originalQuery : SearchQuery)
    (supportedFeatures : List (String × FeatureSupport)) :
    Option (Except SearchError SearchResults) :=
  let step1 : Except SearchError SearchResults :=
    if originalQuery.facets ≠ [] then
      let facetSupport :=
        (lookupA supportedFeatures "faceted_search").getD FeatureSupport.unsupported
      if facetSupport = FeatureSupport.unsupported ∨ facetSupport = FeatureSupport.emulated then
        applyFacetFallback strategy results originalQuery
      else Except.ok results
    else Except.ok results
  match step1 with
  | Except.error e => some (Except.error e)
  | Except.ok results1 =>
    let step2 : Option (Except SearchError SearchResults) :=
      if originalQuery.highlight.isSome then
        let highlightSupport :=
          (lookupA supportedFeatures "highlighting").getD FeatureSupport.unsupported
        if highlightSupport = FeatureSupport.unsupported ∨ highlightSupport = FeatureSupport.emulated then
          applyHighlightFallback strategy results1 originalQuery
        else some (Except.ok results1)
      else some (Except.ok results1)
    match step2 with
    | none => none
    | some (Except.error e) => some (Except.error e)
    | some (Except.ok results2) => some (Except.ok (applyPostProcessing results2))

/-! ## Streaming fallback (`fallbacks.rs:327-386`) -/

/-- `fallbacks::StreamingFallback` (the pagination emulator). -/
structure StreamingFallback where
  page_size : Nat
  max_pages : Option Nat
deriving DecidableEq

/-- `StreamingFallback::paginate_query` (`fallbacks.rs:339-351`). -/
def StreamingFallback.paginateQuery (sf : StreamingFallback)
    (query : SearchQuery) : List SearchQuery :=
  let maxPages := sf.max_pages.getD 10
  (List.range maxPages).map
    (fun page => { query with page := some page, per_page := some sf.page_size })

/-- `StreamingFallback::combine_results` (`fallbacks.rs:354-385`). Hit
concatenation is exact; `took_ms` accumulates in `u32` and `per_page` is the
hit count cast `as u32`. -/
def StreamingFallback.combineResults (sf : StreamingFallback)
    (pageResults : List SearchResults) : Except SearchError SearchResults :=
  match pageResults with
  | [] =>
    Except.ok
      { total := some 0, page := some 0, per_page := some sf.page_size
        hits := [], facets := none, took_ms := some 0 }
  | firstResult :: _ =>
    let combinedHits := pageResults.foldl (fun acc r => acc ++ r.hits) []
    let totalTime :=
      pageResults.foldl
        (fun acc r => match r.took_ms with | some t => u32Mod (acc + t) | none => acc) 0
    Except.ok
      { total := firstResult.total, page := some 0
        per_page := some (u32Mod combinedHits.length)
        hits := combinedHits, facets := firstResult.facets
        took_ms := some totalTime }


/-! ## Provider matrix from the source, and concrete test fixtures -/

/-- `elasticsearch_capability_matrix` (`capabilities.rs:464-507`). -/
def elasticsearchCapabilityMatrix : CapabilityMatrix :=
  { provider_name := "elasticsearch"
    provider_version := none
    core_capabilities :=
      { full_text_search := FeatureSupport.native
        keyword_search := FeatureSupport.native
        index_management := FeatureSupport.native
        document_operations := FeatureSupport.native
        schema_management := FeatureSupport.native
        filtering := FeatureSupport.native
        pagination := FeatureSupport.native }
    advanced_features :=
      { faceted_search := FeatureSupport.native
        highlighting := FeatureSupport.native
        vector_search := FeatureSupport.conditional
        geo_search := FeatureSupport.native
        streaming_search := FeatureSupport.native
        autocomplete := FeatureSupport.native
        typo_tolerance := FeatureSupport.limited
        custom_ranking := FeatureSupport.native
        multilingual := FeatureSupport.native
        batch_operations := FeatureSupport.native }
    performance_limits :=
      { max_batch_size := some 1000
        max_query_length := some 32768
        max_facets := some 100
        max_filters := some 256
        max_results_per_page := some 10000
        default_timeout_seconds := some 30
        rate_limit_rps := none }
    provider_specific :=
      [("scroll_api", FeatureSupport.native)
       , ("percolator", FeatureSupport.native)
       , ("machine_learning", FeatureSupport.conditional)
       , ("security", FeatureSupport.conditional)] }

/-- A query with every field empty, used as the base of the test fixtures. -/
def emptyQuery : SearchQuery :=
  { q := none, filters := [], sort := [], facets := [], page := none
    per_page := none, offset := none, highlight := none, config := none }

/-- The spec's worked example: `per_page = 20000`. -/
def perfQuery : SearchQuery := { emptyQuery with per_page := some 20000 }

/-- A matrix with everything native and no performance limits, used as the
base of the test fixtures. -/
def plainMatrix : CapabilityMatrix :=
  { provider_name := "test"
    provider_version := none
    core_capabilities :=
      { full_text_search := FeatureSupport.native
        keyword_search := FeatureSupport.native
        index_management := FeatureSupport.native
        document_operations := FeatureSupport.native
        schema_management := FeatureSupport.native
        filtering := FeatureSupport.native
        pagination := FeatureSupport.native }
    advanced_features :=
      { faceted_search := FeatureSupport.native
        highlighting := FeatureSupport.native
        vector_search := FeatureSupport.native
        geo_search := FeatureSupport.native
        streaming_search := FeatureSupport.native
        autocomplete := FeatureSupport.native
        typo_tolerance := FeatureSupport.native
        custom_ranking := FeatureSupport.native
        multilingual := FeatureSupport.native
        batch_operations := FeatureSupport.native }
    performance_limits :=
      { max_batch_size := none, max_query_length := none, max_facets := none
        max_filters := none, max_results_per_page := none
        default_timeout_seconds := none, rate_limit_rps := none }
    provider_specific := [] }

/-- A matrix whose only constraint is `max_query_length = Some(3)`. -/
def qlenMatrix : CapabilityMatrix :=
  { plainMatrix with
    performance_limits :=
      { plainMatrix.performance_limits with max_query_length := some 3 } }

/-- A query whose text `"éé"` is 2 characters but 4 UTF-8 bytes. -/
def qlenQuery : SearchQuery := { emptyQuery with q := some "éé" }

/-- A query requesting one facet field. -/
def facetsQuery : SearchQuery := { emptyQuery with facets := ["category"] }

/-- A matrix that does not support faceted search. -/
def facetsUnsupMatrix : CapabilityMatrix :=
  { plainMatrix with
    advanced_features :=
      { plainMatrix.advanced_features with
        faceted_search := FeatureSupport.unsupported } }

/-- A content-free hit fixture. -/
def hitA : SearchHit := { id := "a", score := none, content := none, highlights := none }

/-- A second content-free hit fixture. -/
def hitB : SearchHit := { id := "b", score := none, content := none, highlights := none }

/-- A page of results with a `took_ms` value. -/
def pageR1 : SearchResults :=
  { total := some 7, page := some 0, per_page := some 1, hits := [hitA]
    facets := some "f", took_ms := some 5 }

/-- A page of results without a `took_ms` value. -/
def pageR2 : SearchResults :=
  { total := some 9, page := some 1, per_page := some 1, hits := [hitB]
    facets := none, took_ms := none }

/-- Is this a `PerformanceLimit` issue for the `query_length` parameter? -/
def isQueryLenIssue : CompatibilityIssue → Bool
  | CompatibilityIssue.performanceLimit p _ _ => p = "query_length"
  | _ => false

/-- Does the support result carry a `query_length` performance issue? -/
def hasQueryLenIssue (r : QuerySupportResult) : Bool :=
  r.issues.any isQueryLenIssue

/-- The list of value strings one document contributes for one facet field,
following the spec's words (one entry per occurrence; array fields one entry
per element; numbers and booleans via their string representation): the
spec-side counting basis against which `compute_client_side_facets` is
compared. It mirrors the value coercion of `fallbacks.rs:140-156`. -/
def facetValueStrings (content : String) (doc : Json) (fieldName : String) :
    List String :=
  match jsonGet doc fieldName with
  | none => []
  | some (Json.str s) => [s]
  | some (Json.num n) => [intStr n]
  | some (Json.bool b) => [if b then "true" else "false"]
  | some (Json.arr items) =>
    items.map
      (fun item =>
        match item with
        | Json.str s => s
        | _ => jsonDisplay (2 * rustStrLen content + 8) item)
  | some v => [jsonDisplay (2 * rustStrLen content + 8) v]

/-- The value strings a hit contributes for one facet field (nothing when
the content is absent or fails to parse). -/
def hitFacetValues (hit : SearchHit) (fieldName : String) : List String :=
  match hit.content with
  | none => []
  | some content =>
    match parseJson content with
    | none => []
    | some doc => facetValueStrings content doc fieldName

/-- All occurrences of values of one facet field across the hits, in hit
order. -/
def fieldOccurrences (hits : List SearchHit) (fieldName : String) : List String :=
  (hits.map (fun hit => hitFacetValues hit fieldName)).flatten

/-- The count a facet sub-map holds for one value (0 when absent). -/
def countOf (m : List (String × Nat)) (v : String) : Nat :=
  (lookupA m v).getD 0

/-- The field-to-snippets map the client-side highlighting pass computes for
one hit (empty when the content is absent, fails to parse, or no term
matches; `getD` is only reached on hits where `generateHighlights`
succeeded). -/
def hitHighlightMap (terms : List String) (pre post : String)
    (fields : List String) (maxLen : Option Nat) (hit : SearchHit) :
    List (String × List String) :=
  match hit.content with
  | none => []
  | some content =>
    match parseJson content with
    | none => []
    | some doc => (generateHighlights doc fields terms pre post maxLen).getD []

deriving instance DecidableEq for Except

/-! ## Further fixtures -/

/-- The default strategy with `strict_mode` switched on. -/
def strictStrategy : DegradationStrategy :=
  { DegradationStrategy.default with strict_mode := true }

/-- The default strategy with the `None` highlight policy. -/
def noneStrategy : DegradationStrategy :=
  { DegradationStrategy.default with highlight_fallback := HighlightFallback.none }

/-- A result set with no hits and nothing filled in. -/
def emptyResults : SearchResults :=
  { total := none, page := none, per_page := none, hits := [], facets := none
    took_ms := none }

/-- A document text of 54 UTF-8 bytes: a match for `cat` at byte 0 followed
by 49 ASCII characters and the two-byte `é` at bytes 52–53. The snippet
window `0..min(0+3+50, 54) = 0..53` ends inside `é`. -/
def panicText : String :=
  "cat" ++ String.mk (List.replicate 49 'a') ++ "é"

/-- A document whose `body` field is `panicText`. -/
def panicContent : String :=
  "\x7b\"body\":\"" ++ panicText ++ "\"\x7d"

/-- One hit carrying `panicContent`. -/
def panicResults : SearchResults :=
  { total := none, page := none, per_page := none
    hits := [{ id := "1", score := none, content := some panicContent, highlights := none }]
    facets := none, took_ms := none }

/-- A query searching for `cat` with highlighting requested on `body`. -/
def panicQuery : SearchQuery :=
  { emptyQuery with
    q := some "cat"
    highlight := some { fields := ["body"], pre_tag := none, post_tag := none
                        max_length := none } }

/-- The three hits of the spec's worked facet example (also the source's
`test_client_side_facets` fixture). -/
def threeHits : List SearchHit :=
  [{ id := "1", score := none
     content := some "\x7b\"category\": \"books\", \"price\": 10\x7d"
     highlights := none },
   { id := "2", score := none
     content := some "\x7b\"category\": \"books\", \"price\": 15\x7d"
     highlights := none },
   { id := "3", score := none
     content := some "\x7b\"category\": \"electronics\", \"price\": 100\x7d"
     highlights := none }]

/-- A result set holding one content-free hit. -/
def contentFreeResults : SearchResults :=
  { total := some 1, page := none, per_page := none, hits := [hitA]
    facets := none, took_ms := some 3 }

/-! ## Lemmas about `check_query_support` -/

theorem facetCheck_snd_true_iff (matrix : CapabilityMatrix)
    (strategy : DegradationStrategy) (query : SearchQuery) :
    (facetCheck matrix strategy query).2 = true ↔
      query.facets ≠ [] ∧
        (matrix.advanced_features.faceted_search = FeatureSupport.unsupported ∨
          matrix.advanced_features.faceted_search = FeatureSupport.emulated) := by
  unfold facetCheck
  by_cases h : query.facets = [] <;>
    cases hf : matrix.advanced_features.faceted_search <;> simp [h, hf]

theorem highlightCheck_snd_true_iff (matrix : CapabilityMatrix)
    (strategy : DegradationStrategy) (query : SearchQuery) :
    (highlightCheck matrix strategy query).2 = true ↔
      query.highlight.isSome = true ∧
        (matrix.advanced_features.highlighting = FeatureSupport.unsupported ∨
          matrix.advanced_features.highlighting = FeatureSupport.emulated) := by
  unfold highlightCheck
  cases h : query.highlight <;>
    cases hf : matrix.advanced_features.highlighting <;> simp [h, hf]

theorem facetCheck_fst_ne_nil_of_snd (matrix : CapabilityMatrix)
    (strategy : DegradationStrategy) (query : SearchQuery)
    (h : (facetCheck matrix strategy query).2 = true) :
    (facetCheck matrix strategy query).1 ≠ [] := by
  unfold facetCheck at h ⊢
  by_cases hq : query.facets = [] <;>
    cases hf : matrix.advanced_features.faceted_search <;> simp [hq, hf] at h ⊢

theorem highlightCheck_fst_ne_nil_of_snd (matrix : CapabilityMatrix)
    (strategy : DegradationStrategy) (query : SearchQuery)
    (h : (highlightCheck matrix strategy query).2 = true) :
    (highlightCheck matrix strategy query).1 ≠ [] := by
  unfold highlightCheck at h ⊢
  cases hq : query.highlight <;>
    cases hf : matrix.advanced_features.highlighting <;> simp [hq, hf] at h ⊢

/-- C1: `check_query_support` is total (the Lean function returns a
`QuerySupportResult` for every input), `is_fully_supported` equals
`issues.is_empty()`, `requires_fallback` holds exactly when the facet check
(non-empty `query.facets`) or the highlight check (`query.highlight`
present) meets `Unsupported` or `Emulated` support, and a query that only
exceeds the `per_page` performance limit gets a `PerformanceLimit` issue —
so it is not fully supported — yet `requires_fallback` stays false. -/
theorem check_query_support_contract (matrix : CapabilityMatrix)
    (strategy : DegradationStrategy) (query : SearchQuery) :
    ((checkQuerySupport matrix strategy query).is_fully_supported =
      (checkQuerySupport matrix strategy query).issues.isEmpty)
    ∧ ((checkQuerySupport matrix strategy query).requires_fallback = true ↔
        (query.facets ≠ [] ∧
          (matrix.advanced_features.faceted_search = FeatureSupport.unsupported ∨
            matrix.advanced_features.faceted_search = FeatureSupport.emulated))
        ∨ (query.highlight.isSome = true ∧
            (matrix.advanced_features.highlighting = FeatureSupport.unsupported ∨
              matrix.advanced_features.highlighting = FeatureSupport.emulated)))
    ∧ (query.facets = [] → query.highlight = none →
        ∀ pp maxPp, query.per_page = some pp →
          matrix.performance_limits.max_results_per_page = some maxPp →
          maxPp < pp →
          (checkQuerySupport matrix strategy query).is_fully_supported = false
          ∧ (checkQuerySupport matrix strategy query).requires_fallback = false
          ∧ CompatibilityIssue.performanceLimit "per_page" (natStr pp) (natStr maxPp)
              ∈ (checkQuerySupport matrix strategy query).issues) := by
  refine ⟨rfl, ?_, ?_⟩
  · simp only [checkQuerySupport, Bool.or_eq_true]
    rw [facetCheck_snd_true_iff, highlightCheck_snd_true_iff]
  · intro hfc hhl pp maxPp hpp hmax hlt
    have hfacet : facetCheck matrix strategy query = ([], false) := by
      unfold facetCheck; simp [hfc]
    have hhigh : highlightCheck matrix strategy query = ([], false) := by
      unfold highlightCheck; simp [hhl]
    have hper : perPageCheck matrix query =
        [CompatibilityIssue.performanceLimit "per_page" (natStr pp) (natStr maxPp)] := by
      unfold perPageCheck; rw [hpp, hmax]; simp [hlt]
    refine ⟨?_, ?_, ?_⟩
    · simp [checkQuerySupport, hfacet, hhigh, hper]
    · simp [checkQuerySupport, hfacet, hhigh]
    · simp [checkQuerySupport, hfacet, hhigh, hper]

/-- Witness for C1 at the spec's worked example: `per_page = 20000` against
the ElasticSearch matrix (`max_results_per_page = Some(10000)`). -/
theorem check_query_support_contract_witness :
    (checkQuerySupport elasticsearchCapabilityMatrix DegradationStrategy.default
      perfQuery).is_fully_supported = false
    ∧ (checkQuerySupport elasticsearchCapabilityMatrix DegradationStrategy.default
        perfQuery).requires_fallback = false
    ∧ CompatibilityIssue.performanceLimit "per_page" "20000" "10000"
        ∈ (checkQuerySupport elasticsearchCapabilityMatrix DegradationStrategy.default
            perfQuery).issues := by
  have h :=
    (check_query_support_contract elasticsearchCapabilityMatrix
      DegradationStrategy.default perfQuery).2.2 rfl rfl 20000 10000 rfl rfl (by decide)
  have e1 : natStr 20000 = "20000" := by decide
  have e2 : natStr 10000 = "10000" := by decide
  rw [e1, e2] at h
  exact h

/-- C9: invariant of `check_query_support` — whenever `requires_fallback` is
true the issue list is non-empty (equivalently, `is_fully_supported` is
false), because each branch setting the flag also appends an issue. -/
theorem check_query_support_fallback_invariant (matrix : CapabilityMatrix)
    (strategy : DegradationStrategy) (query : SearchQuery)
    (h : (checkQuerySupport matrix strategy query).requires_fallback = true) :
    (checkQuerySupport matrix strategy query).issues ≠ []
    ∧ (checkQuerySupport matrix strategy query).is_fully_supported = false := by
  simp only [checkQuerySupport, Bool.or_eq_true] at h
  have hne :
      (facetCheck matrix strategy query).1 ≠ [] ∨
        (highlightCheck matrix strategy query).1 ≠ [] := by
    rcases h with h | h
    · exact Or.inl (facetCheck_fst_ne_nil_of_snd matrix strategy query h)
    · exact Or.inr (highlightCheck_fst_ne_nil_of_snd matrix strategy query h)
  have hbig :
      (facetCheck matrix strategy query).1 ++ (highlightCheck matrix strategy query).1
        ++ perPageCheck matrix query ++ queryLenCheck matrix query
        ++ filterCountCheck matrix query ≠ [] := by
    intro hc
    rcases List.append_eq_nil.1 hc with ⟨hc1, -⟩
    rcases List.append_eq_nil.1 hc1 with ⟨hc2, -⟩
    rcases List.append_eq_nil.1 hc2 with ⟨hc3, -⟩
    rcases List.append_eq_nil.1 hc3 with ⟨hc4, hc5⟩
    rcases hne with hne | hne
    · exact hne hc4
    · exact hne hc5
  constructor
  · simpa only [checkQuerySupport] using hbig
  · simp only [checkQuerySupport]
    rw [Bool.eq_false_iff]
    intro hc
    exact hbig (List.isEmpty_iff.1 hc)

/-- Witness for C9 at a concrete input that requires fallback. -/
theorem check_query_support_fallback_invariant_witness :
    (checkQuerySupport facetsUnsupMatrix DegradationStrategy.default
      facetsQuery).issues ≠ []
    ∧ (checkQuerySupport facetsUnsupMatrix DegradationStrategy.default
        facetsQuery).is_fully_supported = false :=
  check_query_support_fallback_invariant facetsUnsupMatrix
    DegradationStrategy.default facetsQuery (by decide)

theorem facetCheck_no_queryLen (matrix : CapabilityMatrix)
    (strategy : DegradationStrategy) (query : SearchQuery) :
    (facetCheck matrix strategy query).1.any isQueryLenIssue = false := by
  unfold facetCheck
  by_cases h : query.facets = [] <;>
    cases hf : matrix.advanced_features.faceted_search <;>
      simp [h, hf, isQueryLenIssue]

theorem highlightCheck_no_queryLen (matrix : CapabilityMatrix)
    (strategy : DegradationStrategy) (query : SearchQuery) :
    (highlightCheck matrix strategy query).1.any isQueryLenIssue = false := by
  unfold highlightCheck
  cases h : query.highlight <;>
    cases hf : matrix.advanced_features.highlighting <;>
      simp [h, hf, isQueryLenIssue]

theorem perPageCheck_no_queryLen (matrix : CapabilityMatrix)
    (query : SearchQuery) :
    (perPageCheck matrix query).any isQueryLenIssue = false := by
  unfold perPageCheck
  cases hp : query.per_page <;>
    cases hm : matrix.performance_limits.max_results_per_page <;>
      simp [isQueryLenIssue]

theorem filterCountCheck_no_queryLen (matrix : CapabilityMatrix)
    (query : SearchQuery) :
    (filterCountCheck matrix query).any isQueryLenIssue = false := by
  unfold filterCountCheck
  by_cases h : query.filters = [] <;>
    cases hm : matrix.performance_limits.max_filters <;> simp [h, isQueryLenIssue]

/-- C5 (amended): with `query.q` and `max_query_length` both set, a
`PerformanceLimit(query_length)` issue is appended exactly when the UTF-8
*byte* length of the query text exceeds the limit. -/
theorem query_length_issue_iff (matrix : CapabilityMatrix)
    (strategy : DegradationStrategy) (query : SearchQuery) (t : String)
    (maxLen : Nat) (hq : query.q = some t)
    (hm : matrix.performance_limits.max_query_length = some maxLen) :
    (hasQueryLenIssue (checkQuerySupport matrix strategy query) = true ↔
      maxLen < rustStrLen t) := by
  unfold hasQueryLenIssue checkQuerySupport
  simp only [List.any_append, Bool.or_eq_true]
  rw [facetCheck_no_queryLen, highlightCheck_no_queryLen, perPageCheck_no_queryLen,
    filterCountCheck_no_queryLen]
  simp only [Bool.false_eq_true, false_or, or_false]
  unfold queryLenCheck
  rw [hq, hm]
  by_cases h : maxLen < rustStrLen t <;> simp [h, isQueryLenIssue]

/-- Witness for C5's amended theorem at `q = "éé"`, limit 3. -/
theorem query_length_issue_iff_witness :
    hasQueryLenIssue (checkQuerySupport qlenMatrix DegradationStrategy.default
      qlenQuery) = true :=
  (query_length_issue_iff qlenMatrix DegradationStrategy.default qlenQuery
    "éé" 3 rfl rfl).2 (by decide)

/-- C5 counterexample: `"éé"` is 2 characters — not more than the limit 3 —
yet the code appends the `query_length` issue, because it compares the byte
length (4). The claim's "number of characters" reading is false. -/
theorem query_length_chars_counterexample :
    "éé".data.length ≤ 3
    ∧ hasQueryLenIssue (checkQuerySupport qlenMatrix DegradationStrategy.default
        qlenQuery) = true := by
  exact ⟨by decide, by decide⟩

/-! ## Streaming fallback theorems -/

/-- C10: `paginate_query` returns exactly `max_pages` queries (10 when
unset); query `i` has `page = i` and `per_page` = the configured page size,
and all other fields are those of the original query (captured by the
record-update equality). -/
theorem paginate_query_spec (sf : StreamingFallback) (query : SearchQuery) :
    (sf.paginateQuery query).length = sf.max_pages.getD 10
    ∧ ∀ i (h : i < (sf.paginateQuery query).length),
        (sf.paginateQuery query).get ⟨i, h⟩ =
          { query with page := some i, per_page := some sf.page_size } := by
  constructor
  · simp [StreamingFallback.paginateQuery]
  · intro i h
    simp [StreamingFallback.paginateQuery, List.get_eq_getElem]

/-- Witness for C10 with `page_size = 25`, `max_pages = Some(3)`. -/
theorem paginate_query_spec_witness :
    ((StreamingFallback.mk 25 (some 3)).paginateQuery emptyQuery).length = 3
    ∧ ((StreamingFallback.mk 25 (some 3)).paginateQuery emptyQuery).get ⟨1, by decide⟩ =
        { emptyQuery with page := some 1, per_page := some 25 } := by
  have h := paginate_query_spec (StreamingFallback.mk 25 (some 3)) emptyQuery
  exact ⟨h.1, h.2 1 (by decide)⟩

theorem foldl_append_hits (l : List SearchResults) (acc : List SearchHit) :
    l.foldl (fun a r => a ++ r.hits) acc = acc ++ (l.map SearchResults.hits).flatten := by
  induction l generalizing acc with
  | nil => simp
  | cons r rest ih => simp [ih, List.append_assoc]

theorem foldl_took_ms (l : List SearchResults) (acc : Nat)
    (h : acc < 4294967296) :
    l.foldl
      (fun a r => match r.took_ms with | some t => u32Mod (a + t) | none => a) acc
      = (acc + (l.filterMap SearchResults.took_ms).sum) % 4294967296 := by
  induction l generalizing acc with
  | nil => simpa using (Nat.mod_eq_of_lt h).symm
  | cons r rest ih =>
    cases hr : r.took_ms with
    | none => simp [List.filterMap_cons, hr, ih acc h]
    | some t =>
      have hlt : u32Mod (acc + t) < 4294967296 := Nat.mod_lt _ (by decide)
      simp only [List.foldl_cons, hr, List.filterMap_cons, List.sum_cons]
      rw [ih _ hlt]
      unfold u32Mod
      rw [Nat.mod_add_mod]
      ring_nf

/-- C7: `combine_results` on a non-empty list returns `Ok` with the
concatenation of all pages' hits in input order, `took_ms` the `u32` sum of
the present `took_ms` values (exact when the sum fits in `u32`), `total` and
`facets` from the first page, `page = 0` and `per_page` the combined hit
count (as `u32`, exact when it fits); on the empty list it returns zero
hits, `total = 0`, `took_ms = 0`, `page = 0`, `per_page` = the configured
page size. -/
theorem combine_results_spec (sf : StreamingFallback)
    (pageResults : List SearchResults) :
    (pageResults = [] →
      sf.combineResults pageResults =
        Except.ok
          { total := some 0, page := some 0, per_page := some sf.page_size
            hits := [], facets := none, took_ms := some 0 })
    ∧ ∀ first rest, pageResults = first :: rest →
        ∃ r, sf.combineResults pageResults = Except.ok r
          ∧ r.hits = (pageResults.map SearchResults.hits).flatten
          ∧ r.took_ms =
              some (u32Mod (pageResults.filterMap SearchResults.took_ms).sum)
          ∧ ((pageResults.filterMap SearchResults.took_ms).sum < 4294967296 →
              r.took_ms = some (pageResults.filterMap SearchResults.took_ms).sum)
          ∧ r.total = first.total
          ∧ r.facets = first.facets
          ∧ r.page = some 0
          ∧ r.per_page = some (u32Mod r.hits.length)
          ∧ (r.hits.length < 4294967296 → r.per_page = some r.hits.length) := by
  constructor
  · intro h
    subst h
    rfl
  · intro first rest h
    subst h
    refine ⟨_, rfl, ?_, ?_, ?_, rfl, rfl, rfl, rfl, ?_⟩
    · exact foldl_append_hits _ []
    · have ht := foldl_took_ms (first :: rest) 0 (by decide)
      rw [Nat.zero_add] at ht
      exact congrArg some ht
    · intro hlt
      have ht := foldl_took_ms (first :: rest) 0 (by decide)
      rw [Nat.zero_add, Nat.mod_eq_of_lt hlt] at ht
      exact congrArg some ht
    · intro hlt
      exact congrArg some (Nat.mod_eq_of_lt hlt)

/-- Witness for C7: the empty case, and the two-page case (the second page
without `took_ms`). -/
theorem combine_results_spec_witness :
    (StreamingFallback.mk 25 none).combineResults [] =
      Except.ok
        { total := some 0, page := some 0, per_page := some 25
          hits := [], facets := none, took_ms := some 0 }
    ∧ ∃ r, (StreamingFallback.mk 25 none).combineResults [pageR1, pageR2] = Except.ok r
        ∧ r.hits = ([pageR1, pageR2].map SearchResults.hits).flatten
        ∧ r.took_ms = some (u32Mod ([pageR1, pageR2].filterMap SearchResults.took_ms).sum)
        ∧ (([pageR1, pageR2].filterMap SearchResults.took_ms).sum < 4294967296 →
            r.took_ms = some ([pageR1, pageR2].filterMap SearchResults.took_ms).sum)
        ∧ r.total = pageR1.total
        ∧ r.facets = pageR1.facets
        ∧ r.page = some 0
        ∧ r.per_page = some (u32Mod r.hits.length)
        ∧ (r.hits.length < 4294967296 → r.per_page = some r.hits.length) :=
  ⟨(combine_results_spec (StreamingFallback.mk 25 none) []).1 rfl,
    (combine_results_spec (StreamingFallback.mk 25 none) [pageR1, pageR2]).2
      pageR1 [pageR2] rfl⟩

/-! ## Fallback processor theorems -/

/-- C3: `strict_mode` is declared (`capabilities.rs:177`) as "Whether to
return errors for unsupported features or attempt fallbacks", but no code
path reads it. With `strict_mode = true`, a facet request, `Unsupported`
facet support and the `ClientSide` facet policy, `process_search_results`
applies the fallback and returns `Ok` — not the `Unsupported` error the
claim (and the field's own documentation) describe. -/
theorem strict_mode_not_consulted :
    processSearchResults strictStrategy emptyResults facetsQuery
        [("faceted_search", FeatureSupport.unsupported)] =
      some (Except.ok
        { emptyResults with
          facets := some "\x7b\x7d", total := some 0, took_ms := some 0 }) := by
  decide

/-- C2: with the default strategy (ClientSide highlight fallback) and
highlighting `Unsupported`, `process_search_results` panics (`none` in the
model) on a document text with a multi-byte UTF-8 character at the 50-byte
window edge: `&text[snippet_start..snippet_end]` slices `0..53` while byte
53 falls inside the two-byte `é`. The last two conjuncts isolate the
failing slice. -/
theorem highlight_snippet_slice_panics :
    processSearchResults DegradationStrategy.default panicResults panicQuery
        [("highlighting", FeatureSupport.unsupported)] = none
    ∧ highlightText panicText ["cat"] "<mark>" "</mark>" none = none
    ∧ byteLen panicText.data = 54
    ∧ byteSlice panicText.data 0 53 = none :=
  ⟨by decide, by decide, by decide, by decide⟩

theorem applyPostProcessing_frame (r : SearchResults) :
    (applyPostProcessing r).hits = r.hits
    ∧ (applyPostProcessing r).facets = r.facets
    ∧ (applyPostProcessing r).page = r.page
    ∧ (applyPostProcessing r).per_page = r.per_page
    ∧ (r.total.isSome → (applyPostProcessing r).total = r.total)
    ∧ (r.total = none → (applyPostProcessing r).total = some (u32Mod r.hits.length))
    ∧ (r.took_ms.isSome → (applyPostProcessing r).took_ms = r.took_ms)
    ∧ (r.took_ms = none → (applyPostProcessing r).took_ms = some 0) := by
  cases ht : r.total <;> cases hk : r.took_ms <;> simp [applyPostProcessing, ht, hk]

theorem applyPostProcessing_idem (r : SearchResults) :
    applyPostProcessing (applyPostProcessing r) = applyPostProcessing r := by
  cases ht : r.total <;> cases hk : r.took_ms <;> simp [applyPostProcessing, ht, hk]

theorem processSearchResults_native (strategy : DegradationStrategy)
    (results : SearchResults) (query : SearchQuery)
    (supportedFeatures : List (String × FeatureSupport)) (l1 l2 : FeatureSupport)
    (h1 : lookupA supportedFeatures "faceted_search" = some l1)
    (h1u : l1 ≠ FeatureSupport.unsupported) (h1e : l1 ≠ FeatureSupport.emulated)
    (h2 : lookupA supportedFeatures "highlighting" = some l2)
    (h2u : l2 ≠ FeatureSupport.unsupported) (h2e : l2 ≠ FeatureSupport.emulated) :
    processSearchResults strategy results query supportedFeatures =
      some (Except.ok (applyPostProcessing results)) := by
  simp [processSearchResults, h1, h2, h1u, h1e, h2u, h2e]

/-- C8: when the supported-features map gives `faceted_search` and
`highlighting` levels other than `Unsupported`/`Emulated`, the only effect
of `process_search_results` is post-processing: it returns `Ok`, leaves
`hits`/`facets`/`page`/`per_page` untouched, sets `total` to the hit count
and `took_ms` to 0 only when those fields are absent, and the result is a
fixed point — a second call with identical inputs changes nothing. -/
theorem process_search_results_native_idempotent (strategy : DegradationStrategy)
    (results : SearchResults) (query : SearchQuery)
    (supportedFeatures : List (String × FeatureSupport)) (l1 l2 : FeatureSupport)
    (h1 : lookupA supportedFeatures "faceted_search" = some l1)
    (h1u : l1 ≠ FeatureSupport.unsupported) (h1e : l1 ≠ FeatureSupport.emulated)
    (h2 : lookupA supportedFeatures "highlighting" = some l2)
    (h2u : l2 ≠ FeatureSupport.unsupported) (h2e : l2 ≠ FeatureSupport.emulated) :
    processSearchResults strategy results query supportedFeatures =
      some (Except.ok (applyPostProcessing results))
    ∧ (applyPostProcessing results).hits = results.hits
    ∧ (applyPostProcessing results).facets = results.facets
    ∧ (applyPostProcessing results).page = results.page
    ∧ (applyPostProcessing results).per_page = results.per_page
    ∧ (results.total.isSome → (applyPostProcessing results).total = results.total)
    ∧ (results.total = none →
        (applyPostProcessing results).total = some (u32Mod results.hits.length))
    ∧ (results.hits.length < 4294967296 → results.total = none →
        (applyPostProcessing results).total = some results.hits.length)
    ∧ (results.took_ms.isSome → (applyPostProcessing results).took_ms = results.took_ms)
    ∧ (results.took_ms = none → (applyPostProcessing results).took_ms = some 0)
    ∧ processSearchResults strategy (applyPostProcessing results) query
        supportedFeatures = some (Except.ok (applyPostProcessing results)) := by
  obtain ⟨f1, f2, f3, f4, f5, f6, f7, f8⟩ := applyPostProcessing_frame results
  refine ⟨processSearchResults_native strategy results query supportedFeatures l1 l2
    h1 h1u h1e h2 h2u h2e, f1, f2, f3, f4, f5, f6, ?_, f7, f8, ?_⟩
  · intro hlen hnone
    rw [f6 hnone]
    exact congrArg some (Nat.mod_eq_of_lt hlen)
  · rw [processSearchResults_native strategy (applyPostProcessing results) query
      supportedFeatures l1 l2 h1 h1u h1e h2 h2u h2e, applyPostProcessing_idem]

/-- Witness for C8 at a concrete input: both features `Native`, a facet and
highlight request present, one hit, `total`/`took_ms` absent. -/
theorem process_search_results_native_idempotent_witness :
    processSearchResults DegradationStrategy.default panicResults panicQuery
        [("faceted_search", FeatureSupport.native), ("highlighting", FeatureSupport.native)] =
      some (Except.ok (applyPostProcessing panicResults))
    ∧ processSearchResults DegradationStrategy.default (applyPostProcessing panicResults)
        panicQuery
        [("faceted_search", FeatureSupport.native), ("highlighting", FeatureSupport.native)] =
      some (Except.ok (applyPostProcessing panicResults)) := by
  have h := process_search_results_native_idempotent DegradationStrategy.default
    panicResults panicQuery
    [("faceted_search", FeatureSupport.native), ("highlighting", FeatureSupport.native)]
    FeatureSupport.native FeatureSupport.native (by decide) (by decide) (by decide)
    (by decide) (by decide) (by decide)
  exact ⟨h.1, h.2.2.2.2.2.2.2.2.2.2⟩

/-! ## Highlight-fallback frame lemmas (C6) -/

theorem optionMapList_length {α β : Type} (f : α → Option β) (xs : List α)
    (ys : List β) (h : optionMapList f xs = some ys) : ys.length = xs.length := by
  induction xs generalizing ys with
  | nil =>
    simp only [optionMapList, Option.some.injEq] at h
    subst h; rfl
  | cons x xs ih =>
    simp only [optionMapList] at h
    cases hf : f x with
    | none => rw [hf] at h; cases h
    | some y =>
      rw [hf] at h
      cases hrest : optionMapList f xs with
      | none => rw [hrest] at h; cases h
      | some ys' =>
        rw [hrest] at h
        cases h
        simp [ih ys' hrest]

theorem optionMapList_get {α β : Type} (f : α → Option β) (xs : List α)
    (ys : List β) (h : optionMapList f xs = some ys) (i : Nat)
    (hx : i < xs.length) (hy : i < ys.length) :
    f (xs.get ⟨i, hx⟩) = some (ys.get ⟨i, hy⟩) := by
  induction xs generalizing ys i with
  | nil => simp at hx
  | cons x xs ih =>
    simp only [optionMapList] at h
    cases hf : f x with
    | none => rw [hf] at h; cases h
    | some y =>
      rw [hf] at h
      cases hrest : optionMapList f xs with
      | none => rw [hrest] at h; cases h
      | some ys' =>
        rw [hrest] at h
        cases h
        cases i with
        | zero => simpa using hf
        | succ n =>
          exact ih ys' hrest n (Nat.lt_of_succ_lt_succ hx) (Nat.lt_of_succ_lt_succ hy)

theorem clientSideHighlightHit_frame (terms : List String) (pre post : String)
    (fields : List String) (maxLen : Option Nat) (hit hit' : SearchHit)
    (h : clientSideHighlightHit terms pre post fields maxLen hit = some hit') :
    hit'.id = hit.id ∧ hit'.score = hit.score ∧ hit'.content = hit.content
    ∧ (hitHighlightMap terms pre post fields maxLen hit = [] → hit' = hit)
    ∧ (hitHighlightMap terms pre post fields maxLen hit ≠ [] →
        hit' = { hit with
          highlights := some
            (serializeStrListMap (hitHighlightMap terms pre post fields maxLen hit)) }) := by
  obtain ⟨hid, hscore, hcontent, hhl⟩ := hit
  cases hcontent with
  | none =>
    simp only [clientSideHighlightHit] at h
    cases h
    simp [hitHighlightMap]
  | some content =>
    simp only [clientSideHighlightHit] at h
    simp only [hitHighlightMap]
    cases hp : parseJson content with
    | none =>
      simp only [hp] at h
      cases h
      simp
    | some doc =>
      simp only [hp] at h ⊢
      cases hg : generateHighlights doc fields terms pre post maxLen with
      | none =>
        simp only [hg] at h
        cases h
      | some m =>
        simp only [hg, Option.getD_some] at h ⊢
        cases m with
        | nil =>
          simp only [List.isEmpty_nil, if_true] at h
          cases h
          simp
        | cons q qs =>
          simp only [List.isEmpty_cons, Bool.false_eq_true, if_false] at h
          cases h
          simp

theorem applyClientSideHighlighting_frame (hits : List SearchHit)
    (query : SearchQuery) (cfg : HighlightConfig) (hits' : List SearchHit)
    (h : applyClientSideHighlighting hits query cfg = some hits') :
    hits'.length = hits.length
    ∧ ∀ i (hx : i < hits.length) (hy : i < hits'.length),
        (hits'.get ⟨i, hy⟩).id = (hits.get ⟨i, hx⟩).id
        ∧ (hits'.get ⟨i, hy⟩).score = (hits.get ⟨i, hx⟩).score
        ∧ (hits'.get ⟨i, hy⟩).content = (hits.get ⟨i, hx⟩).content
        ∧ (hitHighlightMap (extractSearchTerms query) (cfg.pre_tag.getD "<mark>")
            (cfg.post_tag.getD "</mark>") cfg.fields cfg.max_length
            (hits.get ⟨i, hx⟩) = [] →
            hits'.get ⟨i, hy⟩ = hits.get ⟨i, hx⟩)
        ∧ (hitHighlightMap (extractSearchTerms query) (cfg.pre_tag.getD "<mark>")
            (cfg.post_tag.getD "</mark>") cfg.fields cfg.max_length
            (hits.get ⟨i, hx⟩) ≠ [] →
            hits'.get ⟨i, hy⟩ =
              { hits.get ⟨i, hx⟩ with
                highlights := some
                  (serializeStrListMap
                    (hitHighlightMap (extractSearchTerms query) (cfg.pre_tag.getD "<mark>")
                      (cfg.post_tag.getD "</mark>") cfg.fields cfg.max_length
                      (hits.get ⟨i, hx⟩))) }) := by
  unfold applyClientSideHighlighting at h
  refine ⟨optionMapList_length _ _ _ h, ?_⟩
  intro i hx hy
  exact clientSideHighlightHit_frame _ _ _ _ _ _ _ (optionMapList_get _ _ _ h i hx hy)

/-- C6: when the ClientSide highlight fallback runs and succeeds, a hit's
`highlights` is overwritten exactly when its computed field-to-snippets map
is non-empty — a hit whose content is absent or unparseable, or on which no
term matched, is returned unchanged — and no other hit field is modified;
under the `None` policy every hit's `highlights` is cleared and no other
field changes. -/
theorem highlight_fallback_hit_frame (strategy : DegradationStrategy)
    (results : SearchResults) (query : SearchQuery) (cfg : HighlightConfig)
    (hcfg : query.highlight = some cfg) :
    (strategy.highlight_fallback = HighlightFallback.none →
      applyHighlightFallback strategy results query =
        some (Except.ok { results with
          hits := results.hits.map (fun hit => { hit with highlights := none }) }))
    ∧ (strategy.highlight_fallback = HighlightFallback.clientSide →
        ∀ hits', applyClientSideHighlighting results.hits query cfg = some hits' →
          applyHighlightFallback strategy results query =
            some (Except.ok { results with hits := hits' })
          ∧ hits'.length = results.hits.length
          ∧ ∀ i (hx : i < results.hits.length) (hy : i < hits'.length),
              (hits'.get ⟨i, hy⟩).id = (results.hits.get ⟨i, hx⟩).id
              ∧ (hits'.get ⟨i, hy⟩).score = (results.hits.get ⟨i, hx⟩).score
              ∧ (hits'.get ⟨i, hy⟩).content = (results.hits.get ⟨i, hx⟩).content
              ∧ (hitHighlightMap (extractSearchTerms query) (cfg.pre_tag.getD "<mark>")
                  (cfg.post_tag.getD "</mark>") cfg.fields cfg.max_length
                  (results.hits.get ⟨i, hx⟩) = [] →
                  hits'.get ⟨i, hy⟩ = results.hits.get ⟨i, hx⟩)
              ∧ (hitHighlightMap (extractSearchTerms query) (cfg.pre_tag.getD "<mark>")
                  (cfg.post_tag.getD "</mark>") cfg.fields cfg.max_length
                  (results.hits.get ⟨i, hx⟩) ≠ [] →
                  hits'.get ⟨i, hy⟩ =
                    { results.hits.get ⟨i, hx⟩ with
                      highlights := some
                        (serializeStrListMap
                          (hitHighlightMap (extractSearchTerms query)
                            (cfg.pre_tag.getD "<mark>") (cfg.post_tag.getD "</mark>")
                            cfg.fields cfg.max_length (results.hits.get ⟨i, hx⟩))) })) := by
  constructor
  · intro hpol
    unfold applyHighlightFallback
    rw [hpol]
  · intro hpol hits' h
    have hframe := applyClientSideHighlighting_frame results.hits query cfg hits' h
    refine ⟨?_, hframe.1, hframe.2⟩
    unfold applyHighlightFallback
    rw [hpol, hcfg]
    simp only [h]

/-- Witness for C6: the `None` policy, and the ClientSide policy succeeding
on a content-free hit (returned unchanged). -/
theorem highlight_fallback_hit_frame_witness :
    applyHighlightFallback noneStrategy contentFreeResults panicQuery =
      some (Except.ok { contentFreeResults with
        hits := contentFreeResults.hits.map (fun hit => { hit with highlights := none }) })
    ∧ applyHighlightFallback DegradationStrategy.default contentFreeResults panicQuery =
        some (Except.ok { contentFreeResults with hits := [hitA] }) := by
  have cfgEq : panicQuery.highlight =
      some { fields := ["body"], pre_tag := none, post_tag := none, max_length := none } := rfl
  have h1 := (highlight_fallback_hit_frame noneStrategy contentFreeResults panicQuery
    _ cfgEq).1 rfl
  have h2 := (highlight_fallback_hit_frame DegradationStrategy.default contentFreeResults
    panicQuery _ cfgEq).2 rfl [hitA] (by decide)
  exact ⟨h1, h2.1⟩

/-! ## Client-side facet counting lemmas (C4) -/

theorem lookupA_insertA {β : Type} (m : List (String × β)) (key k' : String) (v : β) :
    lookupA (insertA m key v) k' = if key = k' then some v else lookupA m k' := by
  induction m with
  | nil => simp [insertA, lookupA]
  | cons p rest ih =>
    obtain ⟨pk, pv⟩ := p
    by_cases h1 : pk = key
    · by_cases h2 : key = k'
      · simp [insertA, lookupA, h1, h2, h1.trans h2]
      · have h3 : ¬pk = k' := fun hc => h2 (h1 ▸ hc)
        simp [insertA, lookupA, h1, h2, h3]
    · by_cases h2 : pk = k'
      · have h3 : ¬key = k' := fun hc => h1 (h2.trans hc.symm)
        have h4 : ¬k' = key := fun hc => h3 hc.symm
        simp [insertA, lookupA, h1, h2, h3, h4]
      · simp [insertA, lookupA, h1, h2, ih]

theorem incrA_countOf (m : List (String × Nat)) (v0 v : String) :
    countOf (incrA m v0) v =
      if v0 = v then u32Mod (countOf m v + 1) else countOf m v := by
  induction m with
  | nil => by_cases h : v0 = v <;> simp [incrA, countOf, lookupA, h, u32Mod]
  | cons p rest ih =>
    obtain ⟨pk, pv⟩ := p
    by_cases h1 : pk = v0
    · by_cases h2 : v0 = v
      · simp [incrA, countOf, lookupA, h1, h2, h1.trans h2]
      · have h3 : ¬pk = v := fun hc => h2 ((h1.symm.trans hc))
        simp [incrA, countOf, lookupA, h1, h2, h3]
    · by_cases h2 : pk = v
      · have h3 : ¬v0 = v := fun hc => h1 (h2.trans hc.symm)
        have h4 : ¬v = v0 := fun hc => h3 hc.symm
        simp [incrA, countOf, lookupA, h1, h2, h3, h4]
      · simp only [incrA, countOf, lookupA] at ih ⊢
        rw [if_neg h1]
        simp [lookupA, h2, ih]

theorem foldl_incrA_countOf (l : List String) (m : List (String × Nat)) (v : String)
    (h : countOf m v < 4294967296) :
    countOf (l.foldl incrA m) v = (countOf m v + l.count v) % 4294967296 := by
  induction l generalizing m with
  | nil => simp [Nat.mod_eq_of_lt h]
  | cons x xs ih =>
    simp only [List.foldl_cons, List.count_cons]
    by_cases hx : x = v
    · have hlt : countOf (incrA m x) v < 4294967296 := by
        rw [incrA_countOf, if_pos hx]
        exact Nat.mod_lt _ (by decide)
      rw [ih _ hlt, incrA_countOf, if_pos hx]
      simp only [u32Mod, hx]
      rw [Nat.mod_add_mod]
      simp
      omega
    · have hlt : countOf (incrA m x) v < 4294967296 := by
        rw [incrA_countOf, if_neg hx]
        exact h
      rw [ih _ hlt, incrA_countOf, if_neg hx]
      simp [hx]

theorem incrA_ne_nil (m : List (String × Nat)) (v : String) : incrA m v ≠ [] := by
  cases m with
  | nil => simp [incrA]
  | cons p rest =>
    obtain ⟨pk, pv⟩ := p
    by_cases h : pk = v <;> simp [incrA, h]

theorem foldl_incrA_eq_nil_iff (l : List String) (m : List (String × Nat)) :
    l.foldl incrA m = [] ↔ m = [] ∧ l = [] := by
  induction l generalizing m with
  | nil => simp
  | cons x xs ih =>
    simp only [List.foldl_cons]
    rw [ih]
    simp [incrA_ne_nil m x]

theorem facetFieldStep_eq (m : List (String × Nat)) (hit : SearchHit) (f : String) :
    facetFieldStep m hit f = (hitFacetValues hit f).foldl incrA m := by
  unfold facetFieldStep hitFacetValues facetValueStrings
  obtain ⟨hid, hscore, hcontent, hhl⟩ := hit
  cases hcontent with
  | none => rfl
  | some content =>
    cases hp : parseJson content with
    | none => simp [hp]
    | some doc =>
      simp only [hp]
      cases hg : jsonGet doc f with
      | none => rfl
      | some v => cases v <;> simp [List.foldl_map]

theorem hits_foldl_facetFieldStep (hits : List SearchHit) (f : String)
    (m0 : List (String × Nat)) :
    hits.foldl (fun m hit => facetFieldStep m hit f) m0 =
      (fieldOccurrences hits f).foldl incrA m0 := by
  induction hits generalizing m0 with
  | nil => rfl
  | cons hit rest ih =>
    simp only [List.foldl_cons, fieldOccurrences, List.map_cons, List.flatten_cons,
      List.foldl_append]
    rw [facetFieldStep_eq, ih]
    rfl

theorem computeFacets_foldl_lookup (hits : List SearchHit) (fields : List String)
    (acc : List (String × List (String × Nat))) (f : String) :
    lookupA
      (fields.foldl
        (fun facets fieldName =>
          let fieldFacets := hits.foldl (fun m hit => facetFieldStep m hit fieldName) []
          if fieldFacets.isEmpty then facets else insertA facets fieldName fieldFacets)
        acc) f
      = if f ∈ fields ∧ fieldOccurrences hits f ≠ [] then
          some ((fieldOccurrences hits f).foldl incrA [])
        else lookupA acc f := by
  induction fields generalizing acc with
  | nil => simp
  | cons g gs ih =>
    simp only [List.foldl_cons]
    rw [ih]
    by_cases hmem : f ∈ gs ∧ fieldOccurrences hits f ≠ []
    · rw [if_pos hmem, if_pos ⟨List.mem_cons_of_mem g hmem.1, hmem.2⟩]
    · rw [if_neg hmem]
      by_cases hg : g = f
      · subst hg
        by_cases hocc : fieldOccurrences hits g = []
        · have hff : hits.foldl (fun m hit => facetFieldStep m hit g) [] = [] := by
            rw [hits_foldl_facetFieldStep, foldl_incrA_eq_nil_iff]
            exact ⟨rfl, hocc⟩
          simp only [hff, List.isEmpty_nil, if_true]
          rw [if_neg]
          rintro ⟨-, hne⟩
          exact hne hocc
        · have hff : hits.foldl (fun m hit => facetFieldStep m hit g) [] =
              (fieldOccurrences hits g).foldl incrA [] :=
            hits_foldl_facetFieldStep hits g []
          have hffne : (fieldOccurrences hits g).foldl incrA [] ≠ [] := by
            intro hc
            exact hocc ((foldl_incrA_eq_nil_iff _ _).1 hc).2
          simp only [hff]
          rw [if_neg (fun hc => hffne (List.isEmpty_iff.1 hc))]
          rw [lookupA_insertA, if_pos rfl, if_pos ⟨List.mem_cons_self g gs, hocc⟩]
      · have hstep : lookupA
            (if (hits.foldl (fun m hit => facetFieldStep m hit g) []).isEmpty then acc
             else insertA acc g (hits.foldl (fun m hit => facetFieldStep m hit g) [])) f
            = lookupA acc f := by
          split
          · rfl
          · rw [lookupA_insertA, if_neg hg]
        show lookupA
            (if (hits.foldl (fun m hit => facetFieldStep m hit g) []).isEmpty then acc
             else insertA acc g (hits.foldl (fun m hit => facetFieldStep m hit g) [])) f
          = _
        rw [hstep, if_neg]
        rintro ⟨hmem2, hne2⟩
        rcases List.mem_cons.1 hmem2 with hfg | hfgs
        · exact hg hfg.symm
        · exact hmem ⟨hfgs, hne2⟩

theorem compute_facets_lookup (hits : List SearchHit) (fields : List String)
    (f : String) :
    lookupA (computeClientSideFacets hits fields) f =
      if f ∈ fields ∧ fieldOccurrences hits f ≠ [] then
        some ((fieldOccurrences hits f).foldl incrA [])
      else none := by
  unfold computeClientSideFacets
  rw [computeFacets_foldl_lookup]
  rfl

/-- C4: `compute_client_side_facets` maps each requested field to the counts
of its value occurrences across the hits — each hit whose content parses as
JSON contributes one count per occurrence (array fields one per element,
numbers and booleans coerced to strings, per `fieldOccurrences`); a field
with zero occurrences is entirely absent; and the spec's three-hit worked
example yields exactly `{"category": {"books": 2, "electronics": 1}}`.
Counts are `u32` (exact whenever they fit). -/
theorem compute_client_side_facets_spec (hits : List SearchHit)
    (fields : List String) :
    (∀ f, f ∉ fields ∨ fieldOccurrences hits f = [] →
        lookupA (computeClientSideFacets hits fields) f = none)
    ∧ (∀ f, f ∈ fields → fieldOccurrences hits f ≠ [] →
        ∃ m, lookupA (computeClientSideFacets hits fields) f = some m
          ∧ ∀ v, countOf m v = u32Mod ((fieldOccurrences hits f).count v)
            ∧ ((fieldOccurrences hits f).count v < 4294967296 →
                countOf m v = (fieldOccurrences hits f).count v))
    ∧ computeClientSideFacets threeHits ["category"] =
        [("category", [("books", 2), ("electronics", 1)])] := by
  refine ⟨?_, ?_, by decide⟩
  · intro f hf
    rw [compute_facets_lookup, if_neg]
    rintro ⟨hmem, hne⟩
    rcases hf with hf | hf
    · exact hf hmem
    · exact hne hf
  · intro f hmem hne
    refine ⟨_, by rw [compute_facets_lookup, if_pos ⟨hmem, hne⟩], ?_⟩
    intro v
    have h0 : countOf [] v < 4294967296 := by simp [countOf, lookupA]
    have hcount := foldl_incrA_countOf (fieldOccurrences hits f) [] v h0
    have h0' : countOf [] v = 0 := rfl
    rw [h0', Nat.zero_add] at hcount
    constructor
    · exact hcount
    · intro hlt
      rw [hcount]
      exact Nat.mod_eq_of_lt hlt

/-- Witness for C4 at the worked example: the count of `"books"` under
`"category"`. -/
theorem compute_client_side_facets_spec_witness :
    ∃ m, lookupA (computeClientSideFacets threeHits ["category"]) "category" = some m
      ∧ ∀ v, countOf m v = u32Mod ((fieldOccurrences threeHits "category").count v)
        ∧ ((fieldOccurrences threeHits "category").count v < 4294967296 →
            countOf m v = (fieldOccurrences threeHits "category").count v) :=
  (compute_client_side_facets_spec threeHits ["category"]).2.1 "category"
    (by decide) (by decide)
